import Mathlib

/-!
Shallow embedding of the vault-client library (src/index.js).

The library is a Vault HTTP client: a constructor validates configuration and
seeds token state, `getToken` returns the cached token or invokes the
configured auth strategy, the built-in `kubernetes` strategy performs a login
POST and updates the token state, and `request` merges the current token into
outgoing headers.

Modelling conventions:
- Times are `Int` milliseconds (JS `Date.now()` numbers; all values are far
  below 2^53, so exact integer arithmetic is faithful).
- The filesystem is a parameter `fsE : String → Bool` (existsSync) and file
  contents a `String` parameter.
- The HTTP POST performed by the kubernetes strategy is a parameter of type
  `PostResult`: either a thrown transport error (with optional server response
  body, already rendered to a string) or a resolved response object.  A
  resolved response is `Option Response` mirroring the JS truthiness guard
  `!response || !response.data || !response.data.auth ||
  !response.data.auth.client_token` (an absent/falsy field is `none`, and a
  falsy `client_token` is the empty string).
- The configured error-handling policy (`errorHandler`) is a parameter
  `handler : String → HandlerOutcome`: invoked with the error message, it
  either throws or returns a value.
- Outcomes record, besides the result and the final state, the list of POST
  attempts made (`posts`) and the list of messages routed through the error
  handler (`handlerCalls`), so "no network call" and "not routed through the
  policy" are statable.
-/

namespace VaultClient

/-- `const tokenRenewalCliff = 30 * 1000` (milliseconds). -/
def tokenRenewalCliff : Int := 30 * 1000

/-- `this.tokenExpiresAt = token ? Date.now() + 31 * 24 * 60 * 60 * 1000 : 0`:
the 31-day horizon granted to a static token, in milliseconds. -/
def staticTokenHorizonMs : Int := 31 * 24 * 60 * 60 * 1000

/-- The mutable instance state of a `ManageTeamVault` object (the fields set in
the constructor that the rest of the code reads or writes; the memoized
`httpsAgent` and the closures are not part of the token-state model). -/
structure Vault where
  baseUrl : String
  sslCertPath : String
  ignoreSslCertCheck : Bool
  token : String
  tokenExpiresAt : Int
deriving DecidableEq

/-- The `authMethod` constructor option: a strategy name (string) or a
caller-supplied function. -/
inductive AuthMethodCfg
  | name (s : String)
  | func
deriving DecidableEq

/-- Constructor configuration after defaulting (every option modelled as the
value it has once the JS parameter defaults are resolved). -/
structure Config where
  baseUrl : String
  sslCertPath : String
  ignoreSslCertCheck : Bool
  token : String
  authMethod : AuthMethodCfg
deriving DecidableEq

/-- `authMethods.hasOwnProperty(authMethod)`: the registry has exactly the key
`"kubernetes"`. -/
def supportedAuthMethod (s : String) : Bool := s == "kubernetes"

/-- `typeof(authMethod) === "string" && !authMethods.hasOwnProperty(authMethod)`. -/
def authMethodUnsupported : AuthMethodCfg → Bool
  | AuthMethodCfg.name s => !(supportedAuthMethod s)
  | AuthMethodCfg.func => false

/-- The string interpolated into the unsupported-method error message. -/
def authMethodName : AuthMethodCfg → String
  | AuthMethodCfg.name s => s
  | AuthMethodCfg.func => ""

/-- `baseUrl.replace(/^https?:\/\//, "")`: the anchored regex removes one
leading `http://` or `https://` scheme if present. -/
def stripUrlScheme (s : String) : String :=
  if s.startsWith "https://" then s.drop 8
  else if s.startsWith "http://" then s.drop 7
  else s

/-- `.replace(/\/$/, "")`: removes one trailing slash if present. -/
def stripTrailingSlash (s : String) : String :=
  if s.endsWith "/" then s.dropRight 1 else s

/-- `this.baseUrl = `https://${ baseUrl.replace(/^https?:\/\//, "").replace(/\/$/, "") }``. -/
def normalizeBaseUrl (s : String) : String :=
  "https://" ++ stripTrailingSlash (stripUrlScheme s)

/-- The state stored by a successful constructor run: normalized base URL,
`this.token = token || ""` (identity on strings), and
`this.tokenExpiresAt = token ? Date.now() + 31 * 24 * 60 * 60 * 1000 : 0`. -/
def mkVaultState (cfg : Config) (now : Int) : Vault :=
  { baseUrl := normalizeBaseUrl cfg.baseUrl
    sslCertPath := cfg.sslCertPath
    ignoreSslCertCheck := cfg.ignoreSslCertCheck
    token := cfg.token
    tokenExpiresAt := if cfg.token = "" then 0 else now + staticTokenHorizonMs }

/-- The `ManageTeamVault` constructor: the three synchronous validation throws,
in source order, then the field assignments.  `Except.error` models a
synchronously thrown `Error` (the error-handling policy is never involved:
the constructor body contains no `errorHandler` call). -/
def mkVault (cfg : Config) (fsE : String → Bool) (now : Int) : Except String Vault :=
  if authMethodUnsupported cfg.authMethod then
    Except.error ("Vault: Unsupported auth method " ++ authMethodName cfg.authMethod)
  else if !(fsE cfg.sslCertPath) && !cfg.ignoreSslCertCheck then
    Except.error ("sslCertPath: file not found " ++ cfg.sslCertPath)
  else if cfg.baseUrl = "" then
    Except.error ("Invalid baseUrl constructor parameter (" ++ cfg.baseUrl ++ ")")
  else
    Except.ok (mkVaultState cfg now)

/-- Result of `getToken()` with an abstract configured auth strategy:
the returned token, the state after the call, and how many times the strategy
was invoked (0 or 1). -/
structure GetTokenResult where
  token : String
  state : Vault
  authCalls : Nat
deriving DecidableEq

/-- `async getToken () { return this.tokenExpiresAt - tokenRenewalCliff >
Date.now() ? this.token : await this.auth(); }` with the configured strategy
abstracted as a function from the current state to (returned token, new
state). -/
def getToken (v : Vault) (now : Int) (auth : Vault → String × Vault) : GetTokenResult :=
  if v.tokenExpiresAt - tokenRenewalCliff > now then
    { token := v.token, state := v, authCalls := 0 }
  else
    let r := auth v
    { token := r.1, state := r.2, authCalls := 1 }

/-- `response.data.auth`: the authentication object of a login response. -/
structure RespAuth where
  client_token : String
  lease_duration : Int
deriving DecidableEq

/-- `response.data`: the body of a login response; `auth = none` models an
absent/falsy `auth` field. -/
structure RespData where
  auth : Option RespAuth
deriving DecidableEq

/-- The resolved axios response object; `data = none` models an absent/falsy
`data` field. -/
structure Response where
  data : Option RespData
deriving DecidableEq

/-- Outcome of `await post(...)`: a thrown transport error (message, plus the
server response body already rendered as in
`JSON.stringify(e.response.data, null, 4)` when present), or a resolved
response (`none` models a falsy response value, unreachable with axios). -/
inductive PostResult
  | err (message : String) (serverData : Option String)
  | ok (resp : Option Response)
deriving DecidableEq

/-- What the configured error-handling policy does when invoked with an error
message: throw its own error, or return a value. -/
inductive HandlerOutcome
  | throws (msg : String)
  | returns (value : String)
deriving DecidableEq

/-- True when the policy returns normally rather than raising. -/
def HandlerOutcome.isReturns : HandlerOutcome → Bool
  | HandlerOutcome.throws _ => false
  | HandlerOutcome.returns _ => true

/-- How a strategy invocation terminates: an error thrown directly by the
strategy itself (`throw new Error(...)`), an error raised by the invoked
error-handling policy, or a normally returned token. -/
inductive KubeResult
  | fatal (msg : String)
  | raised (msg : String)
  | ok (token : String)
deriving DecidableEq

/-- One login POST attempt: target URL and the `{ jwt, role }` body. -/
structure PostRecord where
  url : String
  jwt : String
  role : String
deriving DecidableEq

/-- Outcome of a strategy invocation: result, final instance state, the POST
attempts made, and the messages routed through the error-handling policy. -/
structure KubeOutcome where
  result : KubeResult
  state : Vault
  posts : List PostRecord
  handlerCalls : List String
deriving DecidableEq

/-- The guard `!response || !response.data || !response.data.auth ||
!response.data.auth.client_token` (a falsy `client_token` is the empty
string). -/
def malformedResponse : Option Response → Bool
  | none => true
  | some r =>
    match r.data with
    | none => true
    | some d =>
      match d.auth with
      | none => true
      | some a => a.client_token == ""

/-- Model of `JSON.stringify(response.data)` as interpolated into the
unrecognized-response message (an absent `data` renders as `undefined`). -/
def renderRespData : Option Response → String
  | none => "undefined"
  | some r =>
    match r.data with
    | none => "undefined"
    | some d =>
      match d.auth with
      | none => "\x7b\x7d"
      | some a =>
        "\x7b\"auth\":\x7b\"client_token\":\"" ++ a.client_token
          ++ "\",\"lease_duration\":" ++ toString a.lease_duration ++ "\x7d\x7d"

/-- The message built in the `catch` branch of the login POST. -/
def loginFailedMsg (baseUrl msg : String) (serverData : Option String) : String :=
  "Vault token refresh error: unsuccessful POST " ++ baseUrl
    ++ "/auth/kubernetes/login, " ++ msg
    ++ (match serverData with
        | some d => "; Server response: " ++ d
        | none => "")

/-- The message built for an unrecognized login response. -/
def unrecognizedMsg (resp : Option Response) : String :=
  "Vault auth: unrecognized response: " ++ renderRespData resp

/-- `this.errorHandler(new Error(emsg)); return this.token;` — the two failure
branches of the kubernetes strategy: the policy is invoked with the message
and its return value is discarded; if it returns normally the strategy
returns the (unchanged) cached `this.token`, and the state is not touched. -/
def kubeRouteError (v : Vault) (post : PostRecord) (emsg : String)
    (handler : String → HandlerOutcome) : KubeOutcome :=
  match handler emsg with
  | HandlerOutcome.throws m =>
    { result := KubeResult.raised m, state := v, posts := [post], handlerCalls := [emsg] }
  | HandlerOutcome.returns _ =>
    { result := KubeResult.ok v.token, state := v, posts := [post], handlerCalls := [emsg] }

/-- `authMethods.kubernetes`: check the credential file exists (throwing
directly if not, before any POST), perform the login POST, route transport
errors and malformed responses through the error-handling policy, and on a
well-formed response set `this.token = response.data.auth.client_token` and
`this.tokenExpiresAt = Date.now() + response.data.auth.lease_duration * 1000`
and return the new token. -/
def kubernetes (v : Vault) (serviceAccountTokenPath role : String)
    (fsE : String → Bool) (fileContents : String)
    (postResult : PostResult) (handler : String → HandlerOutcome) (now : Int) : KubeOutcome :=
  if !(fsE serviceAccountTokenPath) then
    { result := KubeResult.fatal ("serviceAccountTokenPath: file not found " ++ serviceAccountTokenPath)
      state := v, posts := [], handlerCalls := [] }
  else
    let post : PostRecord :=
      { url := v.baseUrl ++ "/auth/kubernetes/login", jwt := fileContents, role := role }
    match postResult with
    | PostResult.err msg serverData =>
      kubeRouteError v post (loginFailedMsg v.baseUrl msg serverData) handler
    | PostResult.ok resp =>
      match resp with
      | some ⟨some ⟨some a⟩⟩ =>
        if a.client_token == "" then
          kubeRouteError v post (unrecognizedMsg resp) handler
        else
          { result := KubeResult.ok a.client_token
            state := { v with token := a.client_token
                              tokenExpiresAt := now + a.lease_duration * 1000 }
            posts := [post], handlerCalls := [] }
      | _ => kubeRouteError v post (unrecognizedMsg resp) handler

/-- `pr` is a strategy failure: a transport-level login failure or a malformed
success response. -/
def isStrategyFailure : PostResult → Bool
  | PostResult.err _ _ => true
  | PostResult.ok resp => malformedResponse resp

/-- `getToken()` with the built-in kubernetes strategy configured: return the
cached token if the expiry is more than the renewal cliff away, else invoke
the strategy. -/
def getTokenKube (v : Vault) (now : Int) (serviceAccountTokenPath role : String)
    (fsE : String → Bool) (fileContents : String)
    (postResult : PostResult) (handler : String → HandlerOutcome) : KubeOutcome :=
  if v.tokenExpiresAt - tokenRenewalCliff > now then
    { result := KubeResult.ok v.token, state := v, posts := [], handlerCalls := [] }
  else
    kubernetes v serviceAccountTokenPath role fsE fileContents postResult handler now

/-- The fixed credential header name used by `request()`. -/
def vaultTokenHeader : String := "X-Vault-Token"

/-- `params.headers = Object.assign({ "X-Vault-Token": await this.getToken() },
params.headers || {})`: start from the token header, then overlay the
caller-supplied headers, so a caller-supplied key wins.  Headers are modelled
as finite maps `String → Option String`. -/
def mergeHeaders (tok : String) (callerHeaders : String → Option String) :
    String → Option String :=
  fun k =>
    match callerHeaders k with
    | some val => some val
    | none => if k = vaultTokenHeader then some tok else none

/-- The outgoing headers computed by `request(params)` (abstract configured
strategy, as in `getToken`). -/
def requestHeaders (v : Vault) (now : Int) (auth : Vault → String × Vault)
    (callerHeaders : String → Option String) : String → Option String :=
  mergeHeaders (getToken v now auth).token callerHeaders

/-! ## Helper lemmas -/

/-- A successful constructor run stores exactly `mkVaultState cfg now`. -/
theorem mkVault_ok_eq (cfg : Config) (fsE : String → Bool) (now : Int) (v : Vault)
    (h : mkVault cfg fsE now = Except.ok v) : v = mkVaultState cfg now := by
  unfold mkVault at h
  split at h
  · exact Except.noConfusion h
  · split at h
    · exact Except.noConfusion h
    · split at h
      · exact Except.noConfusion h
      · exact (Except.ok.inj h).symm

/-- A sample concrete instance state used by witnesses. -/
def sampleVault : Vault :=
  { baseUrl := "https://vault.example:8200/v1"
    sslCertPath := "/ca.crt"
    ignoreSslCertCheck := true
    token := "old"
    tokenExpiresAt := 0 }

/-! ## Claim theorems -/

/-- Claim C1: `getToken()` returns the cached token without invoking the auth
strategy exactly when `tokenExpiresAt - now > tokenRenewalCliff` (30 s); in
every other state — the initial `tokenExpiresAt = 0` included — it invokes the
configured strategy exactly once and returns its result.  (The cached branch
performs no other effect at all: the whole outcome is the unchanged state.) -/
theorem getToken_cache_iff (v : Vault) (now : Int) (auth : Vault → String × Vault) :
    (getToken v now auth =
      if tokenRenewalCliff < v.tokenExpiresAt - now
      then { token := v.token, state := v, authCalls := 0 }
      else { token := (auth v).1, state := (auth v).2, authCalls := 1 })
    ∧ ((getToken v now auth).authCalls = 0 ↔ tokenRenewalCliff < v.tokenExpiresAt - now) := by
  by_cases h : tokenRenewalCliff < v.tokenExpiresAt - now
  · have h' : v.tokenExpiresAt - tokenRenewalCliff > now := by omega
    simp [getToken, h, h']
  · have h' : ¬ (v.tokenExpiresAt - tokenRenewalCliff > now) := by omega
    simp [getToken, h, h']

/-- Claim C4: when the file at `serviceAccountTokenPath` does not exist, the
kubernetes strategy throws directly (a `fatal` result), makes no POST, and
never touches the error-handling policy or the state. -/
theorem kubernetes_missing_credential_fatal (v : Vault) (path role : String)
    (fsE : String → Bool) (contents : String) (pr : PostResult)
    (handler : String → HandlerOutcome) (now : Int)
    (hfs : fsE path = false) :
    kubernetes v path role fsE contents pr handler now =
      { result := KubeResult.fatal ("serviceAccountTokenPath: file not found " ++ path)
        state := v, posts := [], handlerCalls := [] } := by
  simp [kubernetes, hfs]

/-- Witness for C4 at a concrete input. -/
theorem kubernetes_missing_credential_fatal_witness :
    ((fun _ : String => false) "/sa" = false)
    ∧ kubernetes sampleVault "/sa" "blockchain" (fun _ => false) "jwt"
        (PostResult.err "boom" none) (fun _ => HandlerOutcome.returns "x") 0 =
      { result := KubeResult.fatal ("serviceAccountTokenPath: file not found " ++ "/sa")
        state := sampleVault, posts := [], handlerCalls := [] } :=
  ⟨rfl, kubernetes_missing_credential_fatal sampleVault "/sa" "blockchain"
    (fun _ => false) "jwt" (PostResult.err "boom" none)
    (fun _ => HandlerOutcome.returns "x") 0 rfl⟩

/-- Claim C2: a successful kubernetes login response carrying
`auth.client_token` (non-empty, i.e. truthy) and `auth.lease_duration` updates
both fields of the token state — the stored token becomes `client_token` and
the stored expiry becomes `now + lease_duration * 1000` — and the updated
token is returned. -/
theorem kubernetes_success_updates (v : Vault) (path role : String)
    (fsE : String → Bool) (contents : String)
    (handler : String → HandlerOutcome) (now : Int) (a : RespAuth)
    (hfs : fsE path = true) (hct : a.client_token ≠ "") :
    (kubernetes v path role fsE contents (PostResult.ok (some ⟨some ⟨some a⟩⟩)) handler now).state.token
        = a.client_token
    ∧ (kubernetes v path role fsE contents (PostResult.ok (some ⟨some ⟨some a⟩⟩)) handler now).state.tokenExpiresAt
        = now + a.lease_duration * 1000
    ∧ (kubernetes v path role fsE contents (PostResult.ok (some ⟨some ⟨some a⟩⟩)) handler now).result
        = KubeResult.ok a.client_token := by
  simp [kubernetes, hfs, hct]

/-- Witness for C2 at a concrete input. -/
theorem kubernetes_success_updates_witness :
    ((fun _ : String => true) "/sa" = true)
    ∧ (RespAuth.mk "tok-1" 3600).client_token ≠ ""
    ∧ ((kubernetes sampleVault "/sa" "blockchain" (fun _ => true) "jwt"
          (PostResult.ok (some ⟨some ⟨some ⟨"tok-1", 3600⟩⟩⟩))
          (fun _ => HandlerOutcome.returns "x") 100).state.token = "tok-1"
        ∧ (kubernetes sampleVault "/sa" "blockchain" (fun _ => true) "jwt"
            (PostResult.ok (some ⟨some ⟨some ⟨"tok-1", 3600⟩⟩⟩))
            (fun _ => HandlerOutcome.returns "x") 100).state.tokenExpiresAt = 100 + 3600 * 1000
        ∧ (kubernetes sampleVault "/sa" "blockchain" (fun _ => true) "jwt"
            (PostResult.ok (some ⟨some ⟨some ⟨"tok-1", 3600⟩⟩⟩))
            (fun _ => HandlerOutcome.returns "x") 100).result = KubeResult.ok "tok-1") :=
  ⟨rfl, by decide,
    kubernetes_success_updates sampleVault "/sa" "blockchain" (fun _ => true) "jwt"
      (fun _ => HandlerOutcome.returns "x") 100 ⟨"tok-1", 3600⟩ rfl (by decide)⟩

/-- Whatever the policy does, the failure branches leave the state untouched. -/
theorem kubeRouteError_state_eq (v : Vault) (post : PostRecord) (emsg : String)
    (handler : String → HandlerOutcome) :
    (kubeRouteError v post emsg handler).state = v := by
  unfold kubeRouteError
  split <;> rfl

/-- The failure branches route exactly the built message through the policy. -/
theorem kubeRouteError_calls_eq (v : Vault) (post : PostRecord) (emsg : String)
    (handler : String → HandlerOutcome) :
    (kubeRouteError v post emsg handler).handlerCalls = [emsg] := by
  unfold kubeRouteError
  split <;> rfl

/-- When the policy returns normally, the failure branches return the cached
token. -/
theorem kubeRouteError_returns (v : Vault) (post : PostRecord) (emsg : String)
    (handler : String → HandlerOutcome) (hret : (handler emsg).isReturns = true) :
    kubeRouteError v post emsg handler =
      { result := KubeResult.ok v.token, state := v, posts := [post], handlerCalls := [emsg] } := by
  unfold kubeRouteError
  cases hh : handler emsg with
  | throws m => rw [hh] at hret; exact absurd hret (by simp [HandlerOutcome.isReturns])
  | returns val => rfl

/-- A sample static-token configuration used by witnesses. -/
def cfgStatic : Config :=
  { baseUrl := "vault.example:8200/v1"
    sslCertPath := "/ca.crt"
    ignoreSslCertCheck := true
    token := "t-123"
    authMethod := AuthMethodCfg.name "kubernetes" }

/-- A sample empty-token configuration used by witnesses. -/
def cfgEmpty : Config :=
  { baseUrl := "vault.example:8200/v1"
    sslCertPath := "/ca.crt"
    ignoreSslCertCheck := true
    token := ""
    authMethod := AuthMethodCfg.name "kubernetes" }

/-- Claim C3: a construction that succeeds with a non-empty static token seeds
the state with that token and expiry `now + 31 days`, and any `getToken()`
before that horizon minus the renewal cliff returns the static token without
invoking the strategy. -/
theorem static_token_seed (cfg : Config) (fsE : String → Bool) (now : Int) (v : Vault)
    (htok : cfg.token ≠ "") (hok : mkVault cfg fsE now = Except.ok v) :
    v.token = cfg.token
    ∧ v.tokenExpiresAt = now + staticTokenHorizonMs
    ∧ ∀ (now2 : Int) (auth : Vault → String × Vault),
        now2 < now + staticTokenHorizonMs - tokenRenewalCliff →
        getToken v now2 auth = { token := cfg.token, state := v, authCalls := 0 } := by
  have hv := mkVault_ok_eq cfg fsE now v hok
  subst hv
  refine ⟨rfl, by simp [mkVaultState, htok], ?_⟩
  intro now2 auth h2
  have hexp : (mkVaultState cfg now).tokenExpiresAt = now + staticTokenHorizonMs := by
    simp [mkVaultState, htok]
  have hc : (mkVaultState cfg now).tokenExpiresAt - tokenRenewalCliff > now2 := by
    rw [hexp]; omega
  unfold getToken
  rw [if_pos hc]
  rfl

/-- Witness for C3 at a concrete input. -/
theorem static_token_seed_witness :
    (cfgStatic.token ≠ "")
    ∧ mkVault cfgStatic (fun _ => true) 0 = Except.ok (mkVaultState cfgStatic 0)
    ∧ ((5 : Int) < 0 + staticTokenHorizonMs - tokenRenewalCliff)
    ∧ getToken (mkVaultState cfgStatic 0) 5 (fun w => ("aa", w))
        = { token := cfgStatic.token, state := mkVaultState cfgStatic 0, authCalls := 0 } :=
  ⟨by decide, rfl, by decide,
    (static_token_seed cfgStatic (fun _ => true) 0 (mkVaultState cfgStatic 0)
      (by decide) rfl).2.2 5 (fun w => ("aa", w)) (by decide)⟩

/-- Claim C10: an empty static token at construction behaves like no token:
the stored token is the empty string, the stored expiry is 0, and every
`getToken()` at a non-negative clock invokes the strategy. -/
theorem empty_token_no_horizon (cfg : Config) (fsE : String → Bool) (now : Int) (v : Vault)
    (htok : cfg.token = "") (hok : mkVault cfg fsE now = Except.ok v) :
    v.token = ""
    ∧ v.tokenExpiresAt = 0
    ∧ ∀ (now2 : Int) (auth : Vault → String × Vault), 0 ≤ now2 →
        (getToken v now2 auth).authCalls = 1 := by
  have hv := mkVault_ok_eq cfg fsE now v hok
  subst hv
  have hexp : (mkVaultState cfg now).tokenExpiresAt = 0 := by
    simp [mkVaultState, htok]
  refine ⟨htok, hexp, ?_⟩
  intro now2 auth h2
  have hc : ¬ ((mkVaultState cfg now).tokenExpiresAt - tokenRenewalCliff > now2) := by
    rw [hexp]; simp [tokenRenewalCliff]; omega
  simp [getToken, hc]

/-- Witness for C10 at a concrete input. -/
theorem empty_token_no_horizon_witness :
    (cfgEmpty.token = "")
    ∧ mkVault cfgEmpty (fun _ => true) 0 = Except.ok (mkVaultState cfgEmpty 0)
    ∧ ((0 : Int) ≤ 0)
    ∧ (getToken (mkVaultState cfgEmpty 0) 0 (fun w => ("aa", w))).authCalls = 1 :=
  ⟨rfl, rfl, by decide,
    (empty_token_no_horizon cfgEmpty (fun _ => true) 0 (mkVaultState cfgEmpty 0)
      rfl rfl).2.2 0 (fun w => ("aa", w)) (by decide)⟩

/-- Claim C5: a malformed success response (the login response is present but
misses the expected authentication fields) leaves the stored token and expiry
unchanged — the whole state is untouched — and routes the descriptive
unrecognized-response error through the error-handling policy. -/
theorem kubernetes_malformed_no_update (v : Vault) (path role : String)
    (fsE : String → Bool) (contents : String) (handler : String → HandlerOutcome)
    (now : Int) (r : Response)
    (hfs : fsE path = true) (hmal : malformedResponse (some r) = true) :
    (kubernetes v path role fsE contents (PostResult.ok (some r)) handler now).state = v
    ∧ (kubernetes v path role fsE contents (PostResult.ok (some r)) handler now).handlerCalls
        = [unrecognizedMsg (some r)] := by
  rcases r with ⟨_ | ⟨_ | a⟩⟩
  · exact ⟨by simp [kubernetes, hfs, kubeRouteError_state_eq],
      by simp [kubernetes, hfs, kubeRouteError_calls_eq]⟩
  · exact ⟨by simp [kubernetes, hfs, kubeRouteError_state_eq],
      by simp [kubernetes, hfs, kubeRouteError_calls_eq]⟩
  · have hct : (a.client_token == "") = true := by
      simpa [malformedResponse] using hmal
    exact ⟨by simp [kubernetes, hfs, hct, kubeRouteError_state_eq],
      by simp [kubernetes, hfs, hct, kubeRouteError_calls_eq]⟩

/-- Witness for C5 at a concrete input (a response with `data` but no `auth`). -/
theorem kubernetes_malformed_no_update_witness :
    ((fun _ : String => true) "/sa" = true)
    ∧ malformedResponse (some ⟨some ⟨none⟩⟩) = true
    ∧ (kubernetes sampleVault "/sa" "blockchain" (fun _ => true) "jwt"
        (PostResult.ok (some ⟨some ⟨none⟩⟩)) (fun _ => HandlerOutcome.returns "x") 0).state
        = sampleVault
    ∧ (kubernetes sampleVault "/sa" "blockchain" (fun _ => true) "jwt"
        (PostResult.ok (some ⟨some ⟨none⟩⟩)) (fun _ => HandlerOutcome.returns "x") 0).handlerCalls
        = [unrecognizedMsg (some ⟨some ⟨none⟩⟩)] :=
  ⟨rfl, rfl,
    (kubernetes_malformed_no_update sampleVault "/sa" "blockchain" (fun _ => true) "jwt"
      (fun _ => HandlerOutcome.returns "x") 0 ⟨some ⟨none⟩⟩ rfl rfl).1,
    (kubernetes_malformed_no_update sampleVault "/sa" "blockchain" (fun _ => true) "jwt"
      (fun _ => HandlerOutcome.returns "x") 0 ⟨some ⟨none⟩⟩ rfl rfl).2⟩

/-- Counterexample for claim C6: with cached token `"old"`, a transport login
failure, and a policy that returns `"fallback"`, `getToken()` routes the
failure through the policy (one handler call) but returns the cached `"old"`,
not the policy's yield `"fallback"` — the strategy discards the policy's
return value (`this.errorHandler(...); return this.token;`). -/
theorem getToken_policy_value_counterexample :
    ((getTokenKube sampleVault 0 "/sa" "blockchain" (fun _ => true) "jwt"
        (PostResult.err "boom" none) (fun _ => HandlerOutcome.returns "fallback")).handlerCalls.length
        = 1)
    ∧ (getTokenKube sampleVault 0 "/sa" "blockchain" (fun _ => true) "jwt"
        (PostResult.err "boom" none) (fun _ => HandlerOutcome.returns "fallback")).result
        = KubeResult.ok "old"
    ∧ (getTokenKube sampleVault 0 "/sa" "blockchain" (fun _ => true) "jwt"
        (PostResult.err "boom" none) (fun _ => HandlerOutcome.returns "fallback")).result
        ≠ KubeResult.ok "fallback" :=
  ⟨rfl, rfl, by decide⟩

/-- Claim C6 as amended: on every auth strategy failure (transport-level login
failure or malformed response), `getToken()` does not raise directly — it
routes the failure through the configured error-handling policy — and when the
policy returns normally, `getToken()` returns the previously cached token (the
policy's return value is discarded). -/
theorem getToken_failure_returns_cached (v : Vault) (now : Int) (path role : String)
    (fsE : String → Bool) (contents : String) (pr : PostResult)
    (handler : String → HandlerOutcome)
    (hexp : v.tokenExpiresAt - now ≤ tokenRenewalCliff)
    (hfs : fsE path = true)
    (hfail : isStrategyFailure pr = true)
    (hret : ∀ m, (handler m).isReturns = true) :
    (getTokenKube v now path role fsE contents pr handler).handlerCalls.length = 1
    ∧ (getTokenKube v now path role fsE contents pr handler).result = KubeResult.ok v.token := by
  have hc : ¬ (v.tokenExpiresAt - tokenRenewalCliff > now) := by omega
  unfold getTokenKube
  rw [if_neg hc]
  cases pr with
  | err msg serverData =>
    simp [kubernetes, hfs, kubeRouteError_returns _ _ _ _ (hret _)]
  | ok resp =>
    rcases resp with _ | ⟨_ | ⟨_ | a⟩⟩
    · simp [kubernetes, hfs, kubeRouteError_returns _ _ _ _ (hret _)]
    · simp [kubernetes, hfs, kubeRouteError_returns _ _ _ _ (hret _)]
    · simp [kubernetes, hfs, kubeRouteError_returns _ _ _ _ (hret _)]
    · have hct : (a.client_token == "") = true := by
        simpa [isStrategyFailure, malformedResponse] using hfail
      simp [kubernetes, hfs, hct, kubeRouteError_returns _ _ _ _ (hret _)]

/-- Witness for the amended C6 at a concrete input. -/
theorem getToken_failure_returns_cached_witness :
    (sampleVault.tokenExpiresAt - 0 ≤ tokenRenewalCliff)
    ∧ ((fun _ : String => true) "/sa" = true)
    ∧ isStrategyFailure (PostResult.err "boom" none) = true
    ∧ (∀ m, ((fun _ : String => HandlerOutcome.returns "fallback") m).isReturns = true)
    ∧ ((getTokenKube sampleVault 0 "/sa" "blockchain" (fun _ => true) "jwt"
          (PostResult.err "boom" none) (fun _ => HandlerOutcome.returns "fallback")).handlerCalls.length
          = 1
        ∧ (getTokenKube sampleVault 0 "/sa" "blockchain" (fun _ => true) "jwt"
            (PostResult.err "boom" none) (fun _ => HandlerOutcome.returns "fallback")).result
          = KubeResult.ok sampleVault.token) :=
  ⟨by decide, rfl, rfl, fun m => rfl,
    getToken_failure_returns_cached sampleVault 0 "/sa" "blockchain" (fun _ => true) "jwt"
      (PostResult.err "boom" none) (fun _ => HandlerOutcome.returns "fallback")
      (by decide) rfl rfl (fun m => rfl)⟩

/-- Claim C7: `request()` merges the token obtained from `getToken()` into the
outgoing headers under `X-Vault-Token`; when the caller already supplies a
header of that name, the caller's value survives the merge. -/
theorem request_header_merge (v : Vault) (now : Int) (auth : Vault → String × Vault)
    (callerHeaders : String → Option String) :
    (callerHeaders vaultTokenHeader = none →
      requestHeaders v now auth callerHeaders vaultTokenHeader
        = some (getToken v now auth).token)
    ∧ (∀ cv, callerHeaders vaultTokenHeader = some cv →
      requestHeaders v now auth callerHeaders vaultTokenHeader = some cv)
    ∧ (∀ k, k ≠ vaultTokenHeader →
      requestHeaders v now auth callerHeaders k = callerHeaders k) := by
  refine ⟨fun h => ?_, fun cv h => ?_, fun k hk => ?_⟩
  · simp [requestHeaders, mergeHeaders, h]
  · simp [requestHeaders, mergeHeaders, h]
  · unfold requestHeaders mergeHeaders
    cases hch : callerHeaders k with
    | none => simp [hk]
    | some val => simp

/-- A state with a far-future expiry used by the C7 witness. -/
def freshVault : Vault :=
  { baseUrl := "https://vault.example:8200/v1"
    sslCertPath := "/ca.crt"
    ignoreSslCertCheck := true
    token := "t-123"
    tokenExpiresAt := 1000000000000 }

/-- Witness for C7 at two concrete inputs (no caller header, then a
caller-supplied `X-Vault-Token`). -/
theorem request_header_merge_witness :
    (((fun _ : String => (none : Option String)) vaultTokenHeader = none)
      ∧ requestHeaders freshVault 0 (fun w => ("aa", w)) (fun _ => none) vaultTokenHeader
          = some (getToken freshVault 0 (fun w => ("aa", w))).token)
    ∧ (((fun k => if k = vaultTokenHeader then some "caller" else none) vaultTokenHeader
          = some "caller")
      ∧ requestHeaders freshVault 0 (fun w => ("aa", w))
          (fun k => if k = vaultTokenHeader then some "caller" else none) vaultTokenHeader
          = some "caller") :=
  ⟨⟨rfl, (request_header_merge freshVault 0 (fun w => ("aa", w)) (fun _ => none)).1 rfl⟩,
    ⟨by simp,
      (request_header_merge freshVault 0 (fun w => ("aa", w))
        (fun k => if k = vaultTokenHeader then some "caller" else none)).2.1 "caller" (by simp)⟩⟩

/-- `authMethodUnsupported` characterized. -/
theorem authMethodUnsupported_iff (m : AuthMethodCfg) :
    authMethodUnsupported m = true ↔
      ∃ s, m = AuthMethodCfg.name s ∧ supportedAuthMethod s = false := by
  cases m <;> simp [authMethodUnsupported]

/-- Claim C8: construction throws exactly when the auth method is a string not
naming a supported strategy, or the CA certificate file is missing while the
skip-TLS flag is unset, or the base URL is empty; otherwise it succeeds.  (The
model's constructor never consults the error-handling policy: its three throw
sites are plain `Except.error`s.) -/
theorem mkVault_error_iff (cfg : Config) (fsE : String → Bool) (now : Int) :
    (∃ e, mkVault cfg fsE now = Except.error e) ↔
      ((∃ s, cfg.authMethod = AuthMethodCfg.name s ∧ supportedAuthMethod s = false)
        ∨ (fsE cfg.sslCertPath = false ∧ cfg.ignoreSslCertCheck = false)
        ∨ cfg.baseUrl = "") := by
  unfold mkVault
  split
  · rename_i h1
    exact iff_of_true ⟨_, rfl⟩ (Or.inl ((authMethodUnsupported_iff _).mp h1))
  · rename_i h1
    split
    · rename_i h2
      refine iff_of_true ⟨_, rfl⟩ (Or.inr (Or.inl ?_))
      simpa using h2
    · rename_i h2
      split
      · rename_i h3
        exact iff_of_true ⟨_, rfl⟩ (Or.inr (Or.inr h3))
      · rename_i h3
        refine iff_of_false (by simp) ?_
        rintro (hs | ⟨hf, hi⟩ | hb)
        · exact h1 ((authMethodUnsupported_iff _).mpr hs)
        · exact h2 (by simp [hf, hi])
        · exact h3 hb

/-- Modelled from the spec's words for claim C9 ("base URL normalized to an
HTTPS origin: any leading http:// or https:// scheme is replaced by https://,
a trailing slash is stripped"): remove a leading scheme, strip one trailing
slash from the remainder, and prefix `https://`. -/
def specNormalizeBaseUrl (s : String) : String :=
  let withoutScheme :=
    if s.startsWith "https://" then s.drop 8
    else if s.startsWith "http://" then s.drop 7
    else s
  let withoutSlash :=
    if withoutScheme.endsWith "/" then withoutScheme.dropRight 1 else withoutScheme
  "https://" ++ withoutSlash

/-- The kubernetes strategy never writes `baseUrl`. -/
theorem kubernetes_state_baseUrl (v : Vault) (path role : String) (fsE : String → Bool)
    (contents : String) (pr : PostResult) (handler : String → HandlerOutcome) (now : Int) :
    (kubernetes v path role fsE contents pr handler now).state.baseUrl = v.baseUrl := by
  unfold kubernetes
  split
  · rfl
  · cases pr with
    | err msg serverData => simp [kubeRouteError_state_eq]
    | ok resp =>
      rcases resp with _ | ⟨_ | ⟨_ | a⟩⟩
      · simp [kubeRouteError_state_eq]
      · simp [kubeRouteError_state_eq]
      · simp [kubeRouteError_state_eq]
      · by_cases hct : (a.client_token == "") = true
        · simp [hct, kubeRouteError_state_eq]
        · simp [hct]

/-- Claim C9: a successful construction stores the base URL normalized exactly
as the spec describes (scheme replaced by `https://`, trailing slash
stripped), and no later operation of the client — the kubernetes strategy or
`getToken()` built on it — modifies the stored value. -/
theorem baseUrl_normalized_immutable (cfg : Config) (fsE : String → Bool) (now : Int)
    (v : Vault) (hok : mkVault cfg fsE now = Except.ok v) :
    v.baseUrl = specNormalizeBaseUrl cfg.baseUrl
    ∧ (∀ (path role : String) (fsE2 : String → Bool) (contents : String)
        (pr : PostResult) (handler : String → HandlerOutcome) (now2 : Int),
        (kubernetes v path role fsE2 contents pr handler now2).state.baseUrl = v.baseUrl)
    ∧ (∀ (now2 : Int) (path role : String) (fsE2 : String → Bool) (contents : String)
        (pr : PostResult) (handler : String → HandlerOutcome),
        (getTokenKube v now2 path role fsE2 contents pr handler).state.baseUrl = v.baseUrl) := by
  have hv := mkVault_ok_eq cfg fsE now v hok
  subst hv
  refine ⟨?_, ?_, ?_⟩
  · rfl
  · intro path role fsE2 contents pr handler now2
    exact kubernetes_state_baseUrl _ path role fsE2 contents pr handler now2
  · intro now2 path role fsE2 contents pr handler
    unfold getTokenKube
    split
    · rfl
    · exact kubernetes_state_baseUrl _ path role fsE2 contents pr handler now2

/-- Witness for C9 at a concrete input (base URL with `http://` scheme and
trailing slash). -/
theorem baseUrl_normalized_immutable_witness :
    (mkVault
        { baseUrl := "http://vault.example:8200/v1/"
          sslCertPath := "/ca.crt"
          ignoreSslCertCheck := true
          token := ""
          authMethod := AuthMethodCfg.name "kubernetes" } (fun _ => true) 0
      = Except.ok (mkVaultState
          { baseUrl := "http://vault.example:8200/v1/"
            sslCertPath := "/ca.crt"
            ignoreSslCertCheck := true
            token := ""
            authMethod := AuthMethodCfg.name "kubernetes" } 0))
    ∧ (mkVaultState
        { baseUrl := "http://vault.example:8200/v1/"
          sslCertPath := "/ca.crt"
          ignoreSslCertCheck := true
          token := ""
          authMethod := AuthMethodCfg.name "kubernetes" } 0).baseUrl
      = specNormalizeBaseUrl "http://vault.example:8200/v1/" :=
  ⟨rfl,
    (baseUrl_normalized_immutable
      { baseUrl := "http://vault.example:8200/v1/"
        sslCertPath := "/ca.crt"
        ignoreSslCertCheck := true
        token := ""
        authMethod := AuthMethodCfg.name "kubernetes" } (fun _ => true) 0 _ rfl).1⟩

end VaultClient
